import Mathlib

/-!
Verification of the AskLlama utility (src/cli-tools/AskLlama/src/cli/scripts):
a shallow embedding of `config.py` and `fc.py` together with theorems about
the request that `is_task_email` constructs and sends.
-/

/-- Model of a JSON value, sufficient for the payloads built by `fc.py`. -/
inductive Json where
  | str : String → Json
  | bool : Bool → Json
  | arr : List Json → Json
  | obj : List (String × Json) → Json

/-- Lookup of a key in an association list of JSON object members. -/
def lookupKv : List (String × Json) → String → Option Json
  | [], _ => none
  | (k, v) :: rest, key => if k = key then some v else lookupKv rest key

/-- Lookup of a key in a JSON object; `none` on non-objects. -/
def Json.lookup : Json → String → Option Json
  | Json.obj kvs, key => lookupKv kvs key
  | _, _ => none

/-- Key list of a JSON object, in order; `none` on non-objects. -/
def Json.keys : Json → Option (List String)
  | Json.obj kvs => some (kvs.map Prod.fst)
  | _ => none

/-- Lookup in a string-valued association list (used for HTTP headers). -/
def lookupHeader : List (String × String) → String → Option String
  | [], _ => none
  | (k, v) :: rest, key => if k = key then some v else lookupHeader rest key

/-- Rendering of an optional string inside a Python f-string:
`os.getenv` returns `None` when the variable is absent, and Python
interpolates `None` as the four letters `None`. -/
def pyStr : Option String → String
  | none => "None"
  | some s => s

mutual

/-- Python `str()` of a value as it appears when a dict is interpolated into
an f-string: strings in single quotes, booleans as `True`/`False`,
lists in brackets and dicts in braces with `, ` separators. -/
def pyReprJson : Json → String
  | Json.str s => "\x27" ++ s ++ "\x27"
  | Json.bool b => if b then "True" else "False"
  | Json.arr xs => "[" ++ pyReprElems xs ++ "]"
  | Json.obj kvs => "\x7b" ++ pyReprMembers kvs ++ "\x7d"

/-- Comma-separated rendering of list elements, as Python `str()` does. -/
def pyReprElems : List Json → String
  | [] => ""
  | [x] => pyReprJson x
  | x :: xs => pyReprJson x ++ ", " ++ pyReprElems xs

/-- Comma-separated rendering of dict members, as Python `str()` does. -/
def pyReprMembers : List (String × Json) → String
  | [] => ""
  | [(k, v)] => "\x27" ++ k ++ "\x27: " ++ pyReprJson v
  | (k, v) :: kvs => "\x27" ++ k ++ "\x27: " ++ pyReprJson v ++ ", " ++ pyReprMembers kvs

end

/-- Process environment as `config.py` consumes it: the two variables read
via `os.getenv`, each possibly absent. -/
structure Env where
  LOCAL_LLM_BASE_ADDRESS : Option String
  OPEN_WEBUI_JWT : Option String

namespace config

/-- Embeds `llm_address = os.getenv("LOCAL_LLM_BASE_ADDRESS")` (config.py line 3). -/
def llm_address (env : Env) : Option String :=
  env.LOCAL_LLM_BASE_ADDRESS

/-- Embeds `api_url = f'http://\x7bllm_address\x7d/api/chat/completions'` (config.py line 5). -/
def api_url (env : Env) : String :=
  "http://" ++ pyStr (llm_address env) ++ "/api/chat/completions"

/-- Embeds `default_model = 'llama3.2:latest'` (config.py line 6). -/
def default_model : String := "llama3.2:latest"

/-- Embeds `jwt = os.getenv("OPEN_WEBUI_JWT")` (config.py line 7). -/
def jwt (env : Env) : Option String :=
  env.OPEN_WEBUI_JWT

end config

/-- Module-level state of `fc.py` after its imports and top-level statements
ran: `api_url`, `jwt` imported from `config`, and `model = default_model`. -/
structure Modules where
  api_url : String
  model : String
  jwt : Option String

/-- Embeds the import-time evaluation of `config.py` followed by the
module-level statements of `fc.py` (`from config import ...`,
`model = default_model`).  It is a total function: neither module contains
any validation or error path. -/
def load_config (env : Env) : Modules :=
  { api_url := config.api_url env
    model := config.default_model
    jwt := config.jwt env }

/-- An outbound HTTP request as handed to `requests.post`. -/
structure Request where
  method : String
  url : String
  headers : List (String × String)
  body : Json

namespace fc

/-- Embeds the `headers` dict built in `is_task_email`:
Authorization from the f-string `Bearer \x7bjwt\x7d` and a fixed content type. -/
def headers (jwt : Option String) : List (String × String) :=
  [("Authorization", "Bearer " ++ pyStr jwt),
   ("Content-Type", "application/json")]

/-- Embeds the `schema` dict literal built in `is_task_email`. -/
def schema : Json :=
  Json.obj
    [("result", Json.obj
        [("type", Json.str "boolean"),
         ("description", Json.str "True if the email contains a task, false otherwise.")]),
     ("task_subject", Json.obj
        [("type", Json.str "string"),
         ("description", Json.str "Then the subject of the task, if result is true.")]),
     ("task_description", Json.obj
        [("type", Json.str "string"),
         ("description", Json.str "A description of the task that the user needs to do, if result is true.")])]

/-- Embeds the system-message content: two adjacent literals, the second an
f-string interpolating `schema` via Python `str()`. -/
def system_content : String :=
  "You are a helpful AI assistant. The user will provide the content of an email "
    ++ "and you will respond according to the provided schema: "
    ++ pyReprJson schema ++ "."

/-- Embeds the `payload` dict literal built in `is_task_email`. -/
def payload (model : String) (email_content : String) : Json :=
  Json.obj
    [("model", Json.str model),
     ("messages", Json.arr
        [Json.obj [("role", Json.str "system"), ("content", Json.str system_content)],
         Json.obj [("role", Json.str "user"), ("content", Json.str email_content)]]),
     ("format", Json.obj [("type", Json.str "object"), ("properties", schema)]),
     ("stream", Json.bool false)]

/-- The single request that `is_task_email` hands to `requests.post`:
a POST to the imported `api_url` with the built headers and payload. -/
def request (mods : Modules) (email_content : String) : Request :=
  { method := "POST"
    url := mods.api_url
    headers := headers mods.jwt
    body := payload mods.model email_content }

/-- Embeds `is_task_email(email_content)`. The network is an explicit
parameter `net` mapping a request to a response of an arbitrary type `R`;
the result records the module state after the call, the list of outbound
requests issued, and the returned value `response = requests.post(...)`. -/
def is_task_email {R : Type} (mods : Modules) (net : Request → R)
    (email_content : String) : Modules × List Request × R :=
  (mods, [request mods email_content], net (request mods email_content))

/-- Element `i` of the `messages` array of a request body, when present. -/
def messageAt (r : Request) (i : Nat) : Option Json :=
  match r.body.lookup "messages" with
  | some (Json.arr xs) => xs[i]?
  | _ => none

end fc

/-- C1: for every input string `s`, `is_task_email` issues exactly one
outbound POST request, and the `messages` field of its payload has as
second element a user turn whose `content` is `s` verbatim. -/
theorem c1_user_content_verbatim (mods : Modules) (R : Type)
    (net : Request → R) (s : String) :
    (fc.is_task_email mods net s).2.1 = [fc.request mods s] ∧
    (fc.request mods s).method = "POST" ∧
    fc.messageAt (fc.request mods s) 1 =
      some (Json.obj [("role", Json.str "user"), ("content", Json.str s)]) :=
  ⟨rfl, rfl, rfl⟩

/-- C2: behavior of the code at the failing input.  With the bearer-token
variable absent, the configuration loader completes without any error and
`is_task_email` sends a request whose Authorization header is the literal
string `Bearer None`, contradicting the claim that a configuration error is
raised before any network call. -/
theorem c2_missing_token_sends_bearer_none :
    load_config { LOCAL_LLM_BASE_ADDRESS := some "localhost:8080", OPEN_WEBUI_JWT := none } =
      { api_url := "http://localhost:8080/api/chat/completions"
        model := "llama3.2:latest"
        jwt := none } ∧
    lookupHeader
      (fc.request
        (load_config { LOCAL_LLM_BASE_ADDRESS := some "localhost:8080", OPEN_WEBUI_JWT := none })
        "hello").headers "Authorization" = some "Bearer None" :=
  ⟨rfl, rfl⟩

/-- C3: for every input string, the `stream` field of the payload built by
`is_task_email` is the boolean `false`. -/
theorem c3_stream_always_false (mods : Modules) (s : String) :
    (fc.request mods s).body.lookup "stream" = some (Json.bool false) :=
  rfl

/-- C4: for every input string, the `format` field of the payload is an
object with `type` equal to `object` whose `properties` member has exactly
the keys `result`, `task_subject`, `task_description`, declared with types
boolean, string and string respectively. -/
theorem c4_format_properties (mods : Modules) (s : String) :
    (fc.request mods s).body.lookup "format" =
      some (Json.obj [("type", Json.str "object"), ("properties", fc.schema)]) ∧
    Json.keys fc.schema = some ["result", "task_subject", "task_description"] ∧
    (fc.schema.lookup "result").bind (fun j => j.lookup "type") = some (Json.str "boolean") ∧
    (fc.schema.lookup "task_subject").bind (fun j => j.lookup "type") = some (Json.str "string") ∧
    (fc.schema.lookup "task_description").bind (fun j => j.lookup "type") = some (Json.str "string") :=
  ⟨rfl, rfl, rfl, rfl, rfl⟩

/-- C5 counterexample: when `LOCAL_LLM_BASE_ADDRESS` is absent, the derived
URL is `http://None/api/chat/completions` — the host part is the literal
text `None`, not an empty host as the claim states. -/
theorem c5_counterexample :
    config.api_url { LOCAL_LLM_BASE_ADDRESS := none, OPEN_WEBUI_JWT := none } =
      "http://None/api/chat/completions" ∧
    config.api_url { LOCAL_LLM_BASE_ADDRESS := none, OPEN_WEBUI_JWT := none } ≠
      "http:///api/chat/completions" :=
  ⟨rfl, by decide⟩

/-- C5 (amended): the loader derives the URL by interpolating the variable
into `http://.../api/chat/completions`; when the variable is absent it does
not fail fast, and the URL embeds the placeholder text `None` as the host. -/
theorem c5_url_interpolation (env : Env) :
    config.api_url env =
      "http://" ++ pyStr env.LOCAL_LLM_BASE_ADDRESS ++ "/api/chat/completions" ∧
    (env.LOCAL_LLM_BASE_ADDRESS = none →
      config.api_url env = "http://None/api/chat/completions") :=
  ⟨rfl, fun h => by simp [config.api_url, config.llm_address, h, pyStr]⟩

/-- C5 witness: the amended theorem applied at the concrete environment with
the address variable absent. -/
theorem c5_url_interpolation_witness :
    config.api_url { LOCAL_LLM_BASE_ADDRESS := none, OPEN_WEBUI_JWT := none } =
      "http://None/api/chat/completions" :=
  (c5_url_interpolation { LOCAL_LLM_BASE_ADDRESS := none, OPEN_WEBUI_JWT := none }).2 rfl

/-- C6: for every input string, the `messages` field is exactly two
role-tagged turns: a system turn whose content is the fixed instruction
embedding the Python rendering of the schema, then a user turn holding the
raw email text. -/
theorem c6_messages_two_turns (mods : Modules) (s : String) :
    (fc.request mods s).body.lookup "messages" =
      some (Json.arr
        [Json.obj [("role", Json.str "system"), ("content", Json.str fc.system_content)],
         Json.obj [("role", Json.str "user"), ("content", Json.str s)]]) ∧
    fc.system_content =
      "You are a helpful AI assistant. The user will provide the content of an email "
        ++ "and you will respond according to the provided schema: "
        ++ pyReprJson fc.schema ++ "." :=
  ⟨rfl, rfl⟩

/-- C7: `is_task_email` returns exactly the value the network produced for
the emitted request, for every response type and network function, so no
parsing or transformation of the response is possible. -/
theorem c7_response_returned_unmodified (mods : Modules) (R : Type)
    (net : Request → R) (s : String) :
    (fc.is_task_email mods net s).2.2 = net (fc.request mods s) :=
  rfl

/-- C8: each invocation emits exactly one request — a POST to the configured
URL — and leaves the module-level configuration unchanged. -/
theorem c8_single_call_no_mutation (mods : Modules) (R : Type)
    (net : Request → R) (s : String) :
    (fc.is_task_email mods net s).1 = mods ∧
    (fc.is_task_email mods net s).2.1.length = 1 ∧
    (fc.is_task_email mods net s).2.1 = [fc.request mods s] ∧
    (fc.request mods s).method = "POST" ∧
    (fc.request mods s).url = mods.api_url :=
  ⟨rfl, rfl, rfl, rfl, rfl⟩

/-- C9: two invocations with different email contents under the same
configuration build requests agreeing on method, URL, headers, model,
format, stream, key set and the system turn; only the user turn varies, and
there only the `content` value, which equals the respective input. -/
theorem c9_only_user_content_varies (mods : Modules) (s₁ s₂ : String) :
    (fc.request mods s₁).method = (fc.request mods s₂).method ∧
    (fc.request mods s₁).url = (fc.request mods s₂).url ∧
    (fc.request mods s₁).headers = (fc.request mods s₂).headers ∧
    (fc.request mods s₁).body.lookup "model" = (fc.request mods s₂).body.lookup "model" ∧
    (fc.request mods s₁).body.lookup "format" = (fc.request mods s₂).body.lookup "format" ∧
    (fc.request mods s₁).body.lookup "stream" = (fc.request mods s₂).body.lookup "stream" ∧
    Json.keys (fc.request mods s₁).body = Json.keys (fc.request mods s₂).body ∧
    fc.messageAt (fc.request mods s₁) 0 = fc.messageAt (fc.request mods s₂) 0 ∧
    fc.messageAt (fc.request mods s₁) 1 =
      some (Json.obj [("role", Json.str "user"), ("content", Json.str s₁)]) ∧
    fc.messageAt (fc.request mods s₂) 1 =
      some (Json.obj [("role", Json.str "user"), ("content", Json.str s₂)]) :=
  ⟨rfl, rfl, rfl, rfl, rfl, rfl, rfl, rfl, rfl, rfl⟩

/-- C10: payload and header construction is total over all strings — the
empty string included — always yielding the same well-formed shape and a
single POST, with no validation and no error path before the request. -/
theorem c10_total_over_all_strings (mods : Modules) (R : Type)
    (net : Request → R) (s : String) :
    fc.is_task_email mods net s = (mods, [fc.request mods s], net (fc.request mods s)) ∧
    Json.keys (fc.request mods s).body = some ["model", "messages", "format", "stream"] ∧
    Json.keys (fc.request mods "").body = some ["model", "messages", "format", "stream"] ∧
    fc.messageAt (fc.request mods "") 1 =
      some (Json.obj [("role", Json.str "user"), ("content", Json.str "")]) :=
  ⟨rfl, rfl, rfl, rfl⟩
